import Mathlib

/-!
Shallow embedding of `leekspin/torversions.py` (Python 2 semantics: the
module uses `xrange`, `cmp` and `__cmp__`-based comparison dispatch, and
guards its decorator with an `if not _PY3` early return).

The embedding covers:
  * `str.split` on a single dot — `splitOnDot`;
  * Python 2 three-way comparison of strings (lexicographic on code
    points) — `charCmp`, `listCmp`, `strCmp`;
  * the `_inf` sentinel object and its `__cmp__` — `PreVal`, `infCmp`;
  * the `Version` class: `__init__` (`parseVersion`), `__cmp__`
    (`Version.cmp`), the six relational methods synthesised by the
    `comparable` decorator (`Version.eq`, `.ne`, `.lt`, `.le`, `.gt`,
    `.ge`), `base` and `getPrefixedPrerelease`.

Python attribute lookup on an attribute never assigned raises
`AttributeError`; fields that `__init__` may leave unassigned are
modelled as `Option` with `none` for the absent attribute, and reading
them goes through `getAttr`, which throws `PyError.attributeError` on
`none`.  Exceptions are modelled with `Except PyError`.
-/

namespace Leekspin

/-- Three-way comparison of two characters by code point, as Python 2
compares the individual characters of two byte strings. -/
def charCmp (a b : Char) : Int :=
  if a < b then -1 else if b < a then 1 else 0

/-- Three-way lexicographic comparison of two character lists: Python 2
`cmp` on strings.  A strict prefix compares less than the longer string. -/
def listCmp : List Char → List Char → Int
  | [], [] => 0
  | [], _ :: _ => -1
  | _ :: _, [] => 1
  | a :: as, b :: bs =>
    let c := charCmp a b
    if c ≠ 0 then c else listCmp as bs

/-- Python 2 `cmp(a, b)` for two strings. -/
def strCmp (a b : String) : Int :=
  listCmp a.toList b.toList

/-- Helper for `splitOnDot`: walks the character list accumulating the
current field, emitting a field at every dot.  Mirrors the behaviour of
Python `str.split` with a one-character separator. -/
def splitDotAux : List Char → List Char → List (List Char)
  | [], acc => [acc.reverse]
  | c :: rest, acc =>
    if c = '.' then acc.reverse :: splitDotAux rest []
    else splitDotAux rest (c :: acc)

/-- Python `version.split(".")` (torversions.py line 157).  Like the
Python original, the result is never empty: a string with no dot yields
the one-element list `[s]`, and the empty string yields `[""]`. -/
def splitOnDot (s : String) : List String :=
  (splitDotAux s.toList []).map String.mk

/-- Exceptions that the embedded code can raise.
`incomparableVersions` carries the two package labels interpolated into
the message `"%r != %r" % (self.package, other.package)` at
torversions.py lines 225-226.  `attributeError` models Python
`AttributeError` from reading a never-assigned instance attribute.
`nameError` models Python `NameError` from an undefined global name. -/
inductive PyError where
  | incomparableVersions : String → String → PyError
  | attributeError : PyError
  | nameError : PyError
deriving DecidableEq, Repr

/-- Values that can stand in the fourth slot of the comparison tuple in
`Version.__cmp__`: either the raw prerelease string, or the `_inf`
sentinel substituted for `None`.  The sentinel is the single instance
created at torversions.py line 69 (`_inf = _inf()`); the single
constructor `PreVal.inf` models that singleton. -/
inductive PreVal where
  | inf : PreVal
  | str : String → PreVal
deriving DecidableEq, Repr

/-- `_inf.__cmp__(other)` (torversions.py lines 55-67): returns 0 when
`other` is the `_inf` singleton itself and 1 for every other value. -/
def infCmp : PreVal → Int
  | .inf => 0
  | .str _ => 1

/-- Python 2 `cmp` between two values of the fourth tuple slot.  When
`_inf` is on the left its `__cmp__` decides; when it is on the right,
Python 2 negates the reflected `_inf.__cmp__` call, giving -1; two
strings compare as strings. -/
def preCmp : PreVal → PreVal → Int
  | .inf, other => infCmp other
  | .str _, .inf => -1
  | .str a, .str b => strCmp a b

/-- The substitution at torversions.py lines 228-236: an absent
(`None`) prerelease is replaced by the `_inf` sentinel, any other
prerelease participates as the raw string. -/
def effectivePre : Option String → PreVal
  | none => .inf
  | some s => .str s

/-- The attribute state of a `Version` instance after `__init__`
(torversions.py lines 141-168).  `none` in `major`, `minor`, `micro`
means the attribute was never assigned (the `try` block stopped at an
`IndexError` before reaching it); `none` in `package` means the
`if package:` guard at line 167 was falsy, so the attribute was never
assigned.  `prerelease` is always assigned by `__init__`; its `none`
state models the Python value `None`, which line 228 of `__cmp__`
explicitly tests for. -/
structure Version where
  major : Option String
  minor : Option String
  micro : Option String
  prerelease : Option String
  package : Option String
deriving DecidableEq, Repr

/-- `Version.__init__(version, package=None)` (torversions.py lines
141-168).  The components list is popped from the end in the order
prerelease, micro, minor, major; an `IndexError` on a pop aborts the
remaining assignments and is swallowed, leaving the earlier attributes
unassigned.  Popping from the end of the split list is indexing into
its reverse, and a failed pop (and every pop after it) is exactly an
out-of-range lookup, so the four fields are the first four entries of
the reversed list.  The package attribute is only assigned when the
argument is truthy, i.e. present and non-empty. -/
def parseVersion (version : String) (package : Option String) : Version :=
  let rev := (splitOnDot version).reverse
  { prerelease := rev[0]?
    micro := rev[1]?
    minor := rev[2]?
    major := rev[3]?
    package := match package with
      | some p => if p = "" then none else some p
      | none => none }

/-- Reading an instance attribute: raises `AttributeError` when the
attribute was never assigned. -/
def getAttr {α : Type} : Option α → Except PyError α
  | some a => .ok a
  | none => .error .attributeError

/-- Python 2 `cmp` on the two 4-tuples built in `Version.__cmp__`
(torversions.py lines 238-245): elementwise three-way comparison, the
first non-zero result deciding. -/
def cmp4 (a1 a2 a3 : String) (a4 : PreVal)
    (b1 b2 b3 : String) (b4 : PreVal) : Int :=
  let c1 := strCmp a1 b1
  if c1 ≠ 0 then c1 else
    let c2 := strCmp a2 b2
    if c2 ≠ 0 then c2 else
      let c3 := strCmp a3 b3
      if c3 ≠ 0 then c3 else preCmp a4 b4

/-- `Version.__cmp__(self, other)` (torversions.py lines 207-246) for
`other` already known to be a `Version` (the `NotImplemented` branch
for foreign types is outside the embedding).  Raises
`IncomparableVersions` when the two package attributes are present and
differ; reading an absent `package`, `major`, `minor` or `micro`
attribute raises `AttributeError`; otherwise returns the tuple
comparison with the `_inf` substitution applied to each side. -/
def Version.cmp (self other : Version) : Except PyError Int := do
  let pa ← getAttr self.package
  let pb ← getAttr other.package
  if pa ≠ pb then throw (.incomparableVersions pa pb)
  let pre := effectivePre self.prerelease
  let opre := effectivePre other.prerelease
  let ma ← getAttr self.major
  let mia ← getAttr self.minor
  let mca ← getAttr self.micro
  let mb ← getAttr other.major
  let mib ← getAttr other.minor
  let mcb ← getAttr other.micro
  pure (cmp4 ma mia mca pre mb mib mcb opre)

/-- `__eq__` as synthesised by the `comparable` decorator
(torversions.py lines 85-89): `self.__cmp__(other) == 0`. -/
def Version.eq (self other : Version) : Except PyError Bool := do
  let c ← self.cmp other
  pure (decide (c = 0))

/-- `__ne__` (torversions.py lines 91-95): `self.__cmp__(other) != 0`. -/
def Version.ne (self other : Version) : Except PyError Bool := do
  let c ← self.cmp other
  pure (decide (c ≠ 0))

/-- `__lt__` (torversions.py lines 97-101): `self.__cmp__(other) < 0`. -/
def Version.lt (self other : Version) : Except PyError Bool := do
  let c ← self.cmp other
  pure (decide (c < 0))

/-- `__le__` (torversions.py lines 103-107): `self.__cmp__(other) <= 0`. -/
def Version.le (self other : Version) : Except PyError Bool := do
  let c ← self.cmp other
  pure (decide (c ≤ 0))

/-- `__gt__` (torversions.py lines 109-113): `self.__cmp__(other) > 0`. -/
def Version.gt (self other : Version) : Except PyError Bool := do
  let c ← self.cmp other
  pure (decide (0 < c))

/-- `__ge__` (torversions.py lines 115-119): `self.__cmp__(other) >= 0`. -/
def Version.ge (self other : Version) : Except PyError Bool := do
  let c ← self.cmp other
  pure (decide (0 ≤ c))

/-- `Version.getPrefixedPrerelease(self, separator=".")`
(torversions.py lines 180-191).  When `self.prerelease` is not `None`
the body executes `pre = prefix + self.prerelease`, but no name
`prefix` is defined in any enclosing scope (the parameter is called
`separator`), so the call raises `NameError`.  When the prerelease is
`None` the initial `pre = ""` is returned unchanged. -/
def Version.getPrefixedPrerelease (self : Version) (_separator : String) :
    Except PyError String :=
  match self.prerelease with
  | none => .ok ""
  | some _ => .error .nameError

/-- `Version.base(self)` (torversions.py lines 170-178).  The first
statement is `prerelease = getPrefixedPrerelease()`: the bare name
`getPrefixedPrerelease` is an instance method, and Python does not
place methods in the lexical scope of sibling methods, so every call
raises `NameError` before anything else runs.  (Even with a `self.`
qualifier the method would raise `NameError` on its undefined name
`prefix`, and the format string `"%d.%d.%d%s"` applied to the
string-valued fields would raise `TypeError`.) -/
def Version.base (_self : Version) : Except PyError String :=
  .error .nameError

/-- The literal `SERVER_VERSIONS` list (torversions.py lines 21-40). -/
def SERVER_VERSIONS : List String :=
  ["0.2.2.39", "0.2.3.24-rc", "0.2.3.25", "0.2.4.5-alpha", "0.2.4.6-alpha",
   "0.2.4.7-alpha", "0.2.4.8-alpha", "0.2.4.9-alpha", "0.2.4.10-alpha",
   "0.2.4.11-alpha", "0.2.4.12-alpha", "0.2.4.14-alpha", "0.2.4.15-rc",
   "0.2.4.16-rc", "0.2.4.17-rc", "0.2.4.18-rc", "0.2.4.19", "0.2.4.20",
   "0.2.5.1-alpha"]

instance {ε α : Type} [DecidableEq ε] [DecidableEq α] :
    DecidableEq (Except ε α) := fun x y =>
  match x, y with
  | .ok a, .ok b => if h : a = b then .isTrue (by rw [h]) else .isFalse (by simp [h])
  | .ok _, .error _ => .isFalse (by simp)
  | .error _, .ok _ => .isFalse (by simp)
  | .error e, .error f => if h : e = f then .isTrue (by rw [h]) else .isFalse (by simp [h])

/-! Helper lemmas shared by the theorems below. -/

theorem listCmp_self (l : List Char) : listCmp l l = 0 := by
  induction l with
  | nil => rfl
  | cons a as ih => simp [listCmp, charCmp, ih]

theorem strCmp_self (s : String) : strCmp s s = 0 :=
  listCmp_self s.toList

theorem preCmp_self (v : PreVal) : preCmp v v = 0 := by
  cases v with
  | inf => rfl
  | str s => simp [preCmp, strCmp_self]

theorem cmp4_self (a1 a2 a3 : String) (a4 : PreVal) :
    cmp4 a1 a2 a3 a4 a1 a2 a3 a4 = 0 := by
  simp [cmp4, strCmp_self, preCmp_self]

theorem mk_toList (s : String) : String.mk s.toList = s := by
  cases s
  rfl

theorem splitDotAux_ne_nil (l acc : List Char) : splitDotAux l acc ≠ [] := by
  induction l generalizing acc with
  | nil => simp [splitDotAux]
  | cons c rest ih =>
    by_cases h : c = '.'
    · simp [splitDotAux, h]
    · simp only [splitDotAux, if_neg h]
      exact ih (c :: acc)

theorem splitOnDot_ne_nil (s : String) : splitOnDot s ≠ [] := by
  simp only [splitOnDot, ne_eq, List.map_eq_nil_iff]
  exact splitDotAux_ne_nil s.toList []

theorem splitDotAux_no_dot (l acc : List Char) (h : '.' ∉ l) :
    splitDotAux l acc = [acc.reverse ++ l] := by
  induction l generalizing acc with
  | nil => simp [splitDotAux]
  | cons c rest ih =>
    have hc : ¬c = '.' := fun hc => h (hc ▸ List.mem_cons_self c rest)
    have hrest : '.' ∉ rest := fun hr => h (List.mem_cons_of_mem c hr)
    simp only [splitDotAux, if_neg hc, ih (c :: acc) hrest,
      List.reverse_cons, List.append_assoc, List.cons_append, List.nil_append]

theorem splitOnDot_no_dot (s : String) (h : '.' ∉ s.toList) :
    splitOnDot s = [s] := by
  unfold splitOnDot
  rw [splitDotAux_no_dot s.toList [] h]
  simp [mk_toList]

theorem cmp_eq_ok_of_fields (a b : Version) (p m1 m2 m3 n1 n2 n3 : String)
    (hpa : a.package = some p) (hpb : b.package = some p)
    (ha1 : a.major = some m1) (ha2 : a.minor = some m2) (ha3 : a.micro = some m3)
    (hb1 : b.major = some n1) (hb2 : b.minor = some n2) (hb3 : b.micro = some n3) :
    a.cmp b = .ok (cmp4 m1 m2 m3 (effectivePre a.prerelease)
                        n1 n2 n3 (effectivePre b.prerelease)) := by
  simp [Version.cmp, hpa, hpb, ha1, ha2, ha3, hb1, hb2, hb3, getAttr,
    Bind.bind, Except.bind, Pure.pure, Except.pure, Functor.map, Except.map,
    throw, throwThe, MonadExceptOf.throw]

theorem cmp_error_of_packages (a b : Version) (pa pb : String)
    (hpa : a.package = some pa) (hpb : b.package = some pb) (hne : pa ≠ pb) :
    a.cmp b = .error (.incomparableVersions pa pb) := by
  simp [Version.cmp, hpa, hpb, hne, getAttr,
    Bind.bind, Except.bind, Pure.pure, Except.pure, Functor.map, Except.map,
    throw, throwThe, MonadExceptOf.throw]

/-- C1: the prerelease rule fails on the code.  `__init__` stores the
final dot-separated token as the prerelease of both versions (here
"20" and "20-rc"), so the `_inf` substitution never applies, and the
lexicographic string comparison puts the prefix "20" strictly below
"20-rc".  `Version("0.2.4.20","tor")` therefore compares LESS than
`Version("0.2.4.20-rc","tor")`, and `greaterThan` returns false where
the module docstring ("A version with a prerelease is always less than
a version without a prerelease") and the spec require true. -/
theorem cmp_0_2_4_20_vs_rc :
    (parseVersion "0.2.4.20" (some "tor")).cmp
      (parseVersion "0.2.4.20-rc" (some "tor")) = .ok (-1) ∧
    (parseVersion "0.2.4.20" (some "tor")).gt
      (parseVersion "0.2.4.20-rc" (some "tor")) = .ok false ∧
    (parseVersion "0.2.4.20" (some "tor")).lt
      (parseVersion "0.2.4.20-rc" (some "tor")) = .ok true := by
  decide

/-- C2: the deciding field is never compared numerically.  With micro
"10" against micro "9" (identical major, minor and prerelease), the
code compares the strings lexicographically, so "10" < "9" and the
version with micro "10" compares LESS, not greater as the claim
requires. -/
theorem cmp_micro_ten_vs_nine :
    (parseVersion "0.2.10.1" (some "tor")).cmp
      (parseVersion "0.2.9.1" (some "tor")) = .ok (-1) ∧
    (parseVersion "0.2.10.1" (some "tor")).gt
      (parseVersion "0.2.9.1" (some "tor")) = .ok false := by
  decide

/-- C3: the SERVER_VERSIONS chain breaks at its middle link.  The
first and third links hold, but `Version("0.2.4.5-alpha","tor") <
Version("0.2.4.20","tor")` is false: the prereleases "5-alpha" and
"20" are compared as strings and "5" > "2", so the comparison returns
GREATER. -/
theorem server_versions_chain_breaks :
    (parseVersion "0.2.3.25" (some "tor")).lt
      (parseVersion "0.2.4.5-alpha" (some "tor")) = .ok true ∧
    (parseVersion "0.2.4.5-alpha" (some "tor")).lt
      (parseVersion "0.2.4.20" (some "tor")) = .ok false ∧
    (parseVersion "0.2.4.5-alpha" (some "tor")).cmp
      (parseVersion "0.2.4.20" (some "tor")) = .ok 1 ∧
    (parseVersion "0.2.4.20" (some "tor")).lt
      (parseVersion "0.2.5.1-alpha" (some "tor")) = .ok true ∧
    "0.2.3.25" ∈ SERVER_VERSIONS ∧ "0.2.4.5-alpha" ∈ SERVER_VERSIONS ∧
    "0.2.4.20" ∈ SERVER_VERSIONS ∧ "0.2.5.1-alpha" ∈ SERVER_VERSIONS := by
  decide

/-- C4 counterexample: a comparison between two versions with EQUAL,
non-empty package labels ("tor" = "tor") still raises — the degenerate
parse of "notaversion" leaves `major`, `minor` and `micro` unassigned,
so `__cmp__` raises `AttributeError` while building its tuples,
refuting "never raises when the labels are equal". -/
theorem cmp_same_package_attribute_error :
    (parseVersion "notaversion" (some "tor")).cmp
      (parseVersion "notaversion" (some "tor")) = .error .attributeError := by
  decide

/-- C6 counterexample: `parse("notaversion")` does not leave all four
fields empty/absent — the whole input string is stored as the
prerelease field, which is neither absent nor the empty string. -/
theorem parse_notaversion_prerelease_set :
    (parseVersion "notaversion" none).prerelease = some "notaversion" ∧
    ¬((parseVersion "notaversion" none).prerelease = none ∨
      (parseVersion "notaversion" none).prerelease = some "") := by
  decide

/-- C7: `base()` never returns a string at all.  Its first statement
refers to the bare name `getPrefixedPrerelease`, which is not in scope
inside the method body, so every call raises `NameError` — in
particular the round trip `parse("0.2.5.1-alpha").base()` raises
instead of returning "0.2.5.1-alpha".  The callee
`getPrefixedPrerelease` is itself broken the same way: it reads the
undefined name `prefix` whenever a prerelease is present. -/
theorem base_raises_name_error :
    (parseVersion "0.2.5.1-alpha" none).base = .error .nameError ∧
    (parseVersion "0.2.5.1-alpha" none).getPrefixedPrerelease "." =
      .error .nameError := by
  decide

/-- C8: the `_inf` sentinel (the one instance of the `PreVal.inf`
constructor, mirroring the single instance bound at torversions.py
line 69) compares EQUAL (0) against itself and GREATER (1) against
every other value. -/
theorem inf_cmp_singleton :
    infCmp PreVal.inf = 0 ∧ ∀ s : String, infCmp (PreVal.str s) = 1 :=
  ⟨rfl, fun _ => rfl⟩

/-- C9 counterexample: parsing the same string twice with the package
argument omitted (Python default `None`) does not yield `equal`
values — the comparison raises `AttributeError`, because the `package`
attribute was never assigned and `__cmp__` reads it first. -/
theorem cmp_parse_twice_no_package_raises :
    (parseVersion "0.2.4.20" none).cmp
      (parseVersion "0.2.4.20" none) = .error .attributeError ∧
    (parseVersion "0.2.4.20" none).eq
      (parseVersion "0.2.4.20" none) = .error .attributeError := by
  decide

/-- C4 (amended): for two versions whose `package` attributes are both
assigned (the constructor assigns the attribute exactly when the label
is present and non-empty) and whose `major`, `minor` and `micro`
attributes are all assigned, the comparison raises
`IncomparableVersions` carrying both labels if and only if the labels
differ; when the labels differ every derived relation propagates the
same `IncomparableVersions` error; and when the labels are equal the
comparison succeeds.  (As stated the claim is false: with an absent
label, or with fields missing after a degenerate parse, comparison
raises `AttributeError` even though the labels are equal — see the
counterexample.) -/
theorem cmp_incomparable_iff (a b : Version) (pa pb : String)
    (hpa : a.package = some pa) (hpb : b.package = some pb)
    (h1 : a.major.isSome) (h2 : a.minor.isSome) (h3 : a.micro.isSome)
    (h4 : b.major.isSome) (h5 : b.minor.isSome) (h6 : b.micro.isSome) :
    (a.cmp b = .error (.incomparableVersions pa pb) ↔ pa ≠ pb) ∧
    (pa ≠ pb →
      a.eq b = .error (.incomparableVersions pa pb) ∧
      a.ne b = .error (.incomparableVersions pa pb) ∧
      a.lt b = .error (.incomparableVersions pa pb) ∧
      a.le b = .error (.incomparableVersions pa pb) ∧
      a.gt b = .error (.incomparableVersions pa pb) ∧
      a.ge b = .error (.incomparableVersions pa pb)) ∧
    (pa = pb → ∃ c, a.cmp b = .ok c) := by
  obtain ⟨m1, ha1⟩ := Option.isSome_iff_exists.mp h1
  obtain ⟨m2, ha2⟩ := Option.isSome_iff_exists.mp h2
  obtain ⟨m3, ha3⟩ := Option.isSome_iff_exists.mp h3
  obtain ⟨n1, hb1⟩ := Option.isSome_iff_exists.mp h4
  obtain ⟨n2, hb2⟩ := Option.isSome_iff_exists.mp h5
  obtain ⟨n3, hb3⟩ := Option.isSome_iff_exists.mp h6
  refine ⟨⟨fun herr hpeq => ?_, fun hne => cmp_error_of_packages a b pa pb hpa hpb hne⟩,
    fun hne => ?_, fun hpeq => ?_⟩
  · subst hpeq
    rw [cmp_eq_ok_of_fields a b pa m1 m2 m3 n1 n2 n3 hpa hpb ha1 ha2 ha3 hb1 hb2 hb3]
      at herr
    exact Except.noConfusion herr
  · have hcmp := cmp_error_of_packages a b pa pb hpa hpb hne
    refine ⟨?_, ?_, ?_, ?_, ?_, ?_⟩ <;>
      simp [Version.eq, Version.ne, Version.lt, Version.le, Version.gt, Version.ge,
        hcmp, Bind.bind, Except.bind]
  · subst hpeq
    exact ⟨_, cmp_eq_ok_of_fields a b pa m1 m2 m3 n1 n2 n3 hpa hpb ha1 ha2 ha3 hb1 hb2 hb3⟩

/-- C4 witness: `Version("0.2.4.1","tor")` against
`Version("0.2.4.1","obfs4")` raises `IncomparableVersions` carrying
both labels. -/
theorem cmp_incomparable_iff_witness :
    (parseVersion "0.2.4.1" (some "tor")).cmp (parseVersion "0.2.4.1" (some "obfs4"))
      = .error (.incomparableVersions "tor" "obfs4") :=
  ((cmp_incomparable_iff (parseVersion "0.2.4.1" (some "tor"))
      (parseVersion "0.2.4.1" (some "obfs4")) "tor" "obfs4"
      (by decide) (by decide) (by decide) (by decide) (by decide)
      (by decide) (by decide) (by decide)).1).mpr (by decide)

/-- C5: each of the six relational methods synthesised by the
`comparable` decorator agrees with the single three-way comparator:
whenever `__cmp__` returns `c`, `equal` holds iff `c = 0`, `notEqual`
iff `c ≠ 0`, `lessThan` iff `c < 0`, `lessOrEqual` iff `c < 0` or
`c = 0`, `greaterThan` iff `c > 0`, and `greaterOrEqual` iff `c > 0`
or `c = 0`. -/
theorem relations_agree_with_cmp (a b : Version) (c : Int)
    (h : a.cmp b = .ok c) :
    (a.eq b = .ok true ↔ c = 0) ∧
    (a.ne b = .ok true ↔ c ≠ 0) ∧
    (a.lt b = .ok true ↔ c < 0) ∧
    (a.le b = .ok true ↔ c < 0 ∨ c = 0) ∧
    (a.gt b = .ok true ↔ 0 < c) ∧
    (a.ge b = .ok true ↔ 0 < c ∨ c = 0) := by
  refine ⟨?_, ?_, ?_, ?_, ?_, ?_⟩ <;>
    simp [Version.eq, Version.ne, Version.lt, Version.le, Version.gt, Version.ge,
      h, Bind.bind, Except.bind, Pure.pure, Except.pure] <;>
    omega

/-- C5 witness: the agreement instantiated at
`Version("0.2.4.19","tor")` and `Version("0.2.4.20","tor")`, whose
three-way comparison returns -1. -/
theorem relations_agree_with_cmp_witness :
    ((parseVersion "0.2.4.19" (some "tor")).eq
        (parseVersion "0.2.4.20" (some "tor")) = .ok true ↔ (-1 : Int) = 0) ∧
    ((parseVersion "0.2.4.19" (some "tor")).ne
        (parseVersion "0.2.4.20" (some "tor")) = .ok true ↔ (-1 : Int) ≠ 0) ∧
    ((parseVersion "0.2.4.19" (some "tor")).lt
        (parseVersion "0.2.4.20" (some "tor")) = .ok true ↔ (-1 : Int) < 0) ∧
    ((parseVersion "0.2.4.19" (some "tor")).le
        (parseVersion "0.2.4.20" (some "tor")) = .ok true ↔
          ((-1 : Int) < 0 ∨ (-1 : Int) = 0)) ∧
    ((parseVersion "0.2.4.19" (some "tor")).gt
        (parseVersion "0.2.4.20" (some "tor")) = .ok true ↔ (0 : Int) < -1) ∧
    ((parseVersion "0.2.4.19" (some "tor")).ge
        (parseVersion "0.2.4.20" (some "tor")) = .ok true ↔
          ((0 : Int) < -1 ∨ (-1 : Int) = 0)) :=
  relations_agree_with_cmp (parseVersion "0.2.4.19" (some "tor"))
    (parseVersion "0.2.4.20" (some "tor")) (-1) (by decide)

/-- C6 (amended): constructing a `Version` never raises (the
embedding of `__init__` is a total function), and for every input
string with no dot the `major`, `minor` and `micro` attributes are
left unassigned while `prerelease` receives the entire input string
(so it is not empty or absent, contrary to the claim — see the
counterexample). -/
theorem parse_dotless_fields (s : String) (p : Option String)
    (h : '.' ∉ s.toList) :
    (parseVersion s p).major = none ∧ (parseVersion s p).minor = none ∧
    (parseVersion s p).micro = none ∧ (parseVersion s p).prerelease = some s := by
  simp [parseVersion, splitOnDot_no_dot s h]

/-- C6 witness: the amended statement instantiated at the degenerate
input "notaversion". -/
theorem parse_dotless_fields_witness :
    (parseVersion "notaversion" none).major = none ∧
    (parseVersion "notaversion" none).minor = none ∧
    (parseVersion "notaversion" none).micro = none ∧
    (parseVersion "notaversion" none).prerelease = some "notaversion" :=
  parse_dotless_fields "notaversion" none (by decide)

/-- C9 (amended): for a version string with at least four
dot-separated fields and a non-empty package label, parsing the same
string twice yields values whose three-way comparison is EQUAL and
whose `equal` relation returns true.  (Unrestricted, the claim is
false: with the package argument omitted, or with a short string, the
comparison raises `AttributeError` — see the counterexample.) -/
theorem parse_idempotent_eq (s p : String) (hp : p ≠ "")
    (h4 : 4 ≤ (splitOnDot s).length) :
    (parseVersion s (some p)).cmp (parseVersion s (some p)) = .ok 0 ∧
    (parseVersion s (some p)).eq (parseVersion s (some p)) = .ok true := by
  have hpkg : (parseVersion s (some p)).package = some p := by
    simp [parseVersion, hp]
  have hlen : ∀ i, i < 4 → i < (splitOnDot s).reverse.length := by
    intro i hi
    rw [List.length_reverse]
    omega
  obtain ⟨m1, hm1⟩ : ∃ x, (splitOnDot s).reverse[3]? = some x :=
    ⟨_, List.getElem?_eq_getElem (hlen 3 (by omega))⟩
  obtain ⟨m2, hm2⟩ : ∃ x, (splitOnDot s).reverse[2]? = some x :=
    ⟨_, List.getElem?_eq_getElem (hlen 2 (by omega))⟩
  obtain ⟨m3, hm3⟩ : ∃ x, (splitOnDot s).reverse[1]? = some x :=
    ⟨_, List.getElem?_eq_getElem (hlen 1 (by omega))⟩
  have hmaj : (parseVersion s (some p)).major = some m1 := by
    simpa [parseVersion] using hm1
  have hmin : (parseVersion s (some p)).minor = some m2 := by
    simpa [parseVersion] using hm2
  have hmic : (parseVersion s (some p)).micro = some m3 := by
    simpa [parseVersion] using hm3
  have hcmp := cmp_eq_ok_of_fields (parseVersion s (some p)) (parseVersion s (some p))
    p m1 m2 m3 m1 m2 m3 hpkg hpkg hmaj hmin hmic hmaj hmin hmic
  rw [cmp4_self] at hcmp
  refine ⟨hcmp, ?_⟩
  simp [Version.eq, hcmp, Bind.bind, Except.bind, Pure.pure, Except.pure]

/-- C9 witness: the amended statement instantiated at the 4-field
string "0.2.4.20" and package "tor". -/
theorem parse_idempotent_eq_witness :
    (parseVersion "0.2.4.20" (some "tor")).cmp
      (parseVersion "0.2.4.20" (some "tor")) = .ok 0 ∧
    (parseVersion "0.2.4.20" (some "tor")).eq
      (parseVersion "0.2.4.20" (some "tor")) = .ok true :=
  parse_idempotent_eq "0.2.4.20" "tor" (by decide) (by decide)

/-- C10: for every input string (with a dot, as the claim states),
the constructor assigns the final dot-separated token to the
prerelease attribute, so after construction the prerelease is a
present string and the `_inf`-substitution branch of `__cmp__` is
never taken: the effective prerelease is always the raw string.  In
particular `Version("0.2.4.20")` has prerelease "20" and micro "4". -/
theorem parse_prerelease_never_none (s : String) (p : Option String)
    (_hdot : '.' ∈ s.toList) :
    (∃ t, (parseVersion s p).prerelease = some t ∧
        effectivePre (parseVersion s p).prerelease = PreVal.str t) ∧
    (parseVersion "0.2.4.20" none).prerelease = some "20" ∧
    (parseVersion "0.2.4.20" none).micro = some "4" := by
  have hne : (splitOnDot s).reverse ≠ [] := by
    simp only [ne_eq, List.reverse_eq_nil_iff]
    exact splitOnDot_ne_nil s
  obtain ⟨t, ht⟩ : ∃ x, (splitOnDot s).reverse[0]? = some x :=
    ⟨_, List.getElem?_eq_getElem (List.length_pos.mpr hne)⟩
  have hpre : (parseVersion s p).prerelease = some t := by
    simpa [parseVersion] using ht
  refine ⟨⟨t, hpre, ?_⟩, by decide, by decide⟩
  rw [hpre]
  rfl

/-- C10 witness: the statement instantiated at the dotted string
"0.2.4.20". -/
theorem parse_prerelease_never_none_witness :
    (∃ t, (parseVersion "0.2.4.20" none).prerelease = some t ∧
        effectivePre (parseVersion "0.2.4.20" none).prerelease = PreVal.str t) ∧
    (parseVersion "0.2.4.20" none).prerelease = some "20" ∧
    (parseVersion "0.2.4.20" none).micro = some "4" :=
  parse_prerelease_never_none "0.2.4.20" none (by decide)

end Leekspin
